import Mathlib

/-!
Shallow embedding of the blind-assistant backend (`src/index.js`).

The server keeps its state in two stores:

* a Firebase realtime database (`db.ref(...)`) holding the device↔user
  binding registry (`device-user/<deviceId>` and `users/<userId>/deviceId`),
  the per-user `locationRequest` flag, the per-device location report list
  (`devices/<deviceId>`), and the per-user cached `detectedFaces` list;
* a MongoDB collection of user documents (`User.findOne`, `doc.save`,
  `doc.updateOne`), each holding a list of enrolled face templates.

Each HTTP handler is embedded as a pure function from the current state
(plus the request parameters) to a pair of the response — `Except
ExpressError α` — and the successor state.  An error response leaves the
state component exactly as the handler left it at the moment `next(err)`
ran, so atomicity claims are statable directly.

Numbers that flow through the JSON layer (coordinates, face descriptors)
are modelled as rationals; timestamps (`Timestamp.now()`) are passed in
explicitly as a `Nat` parameter.
-/

/-- `ExpressError(message, statusCode)` from `utils/ExpressError.js`: an
error value carrying a human message and an optional HTTP status code.
The constructor is called either with one argument (no status) or with a
message and a numeric status, exactly as in the handlers of
`src/index.js`. -/
structure ExpressError where
  message : String
  statusCode : Option Nat
deriving DecidableEq, Repr

/-- The final error-handling middleware (`src/index.js` bottom): a missing
`statusCode` defaults to 500. -/
def handledStatus (e : ExpressError) : Nat :=
  e.statusCode.getD 500

/-- `new ExpressError("Device id must be 6 characters!")` — no status code. -/
def lengthError : ExpressError := ⟨"Device id must be 6 characters!", none⟩

/-- `new ExpressError("This id is already owned!", 409)`. -/
def ownedError : ExpressError := ⟨"This id is already owned!", some 409⟩

/-- `new ExpressError("You must provide a device id!")` — no status code. -/
def noDeviceIdError : ExpressError := ⟨"You must provide a device id!", none⟩

/-- `new ExpressError("No user found with this device id!", 404)`. -/
def noUserForDeviceError : ExpressError := ⟨"No user found with this device id!", some 404⟩

/-- `new ExpressError("You don\x27t have a device id!", 404)`. -/
def noDeviceError : ExpressError := ⟨"You don\x27t have a device id!", some 404⟩

/-- `new ExpressError("No user found.", 401)` — used both by
`/recognise-face` and `/delete-face`. -/
def noUserError : ExpressError := ⟨"No user found.", some 401⟩

/-- The JavaScript `TypeError` raised by `detections.descriptor` when
`detectSingleFace(...)` resolved to `undefined` (zero detections); it is
forwarded by `catchAsync` to the error middleware with no status code. -/
def descriptorTypeError : ExpressError :=
  ⟨"Cannot read properties of undefined (reading \x27descriptor\x27)", none⟩

/-- A location report as pushed onto `devices/<deviceId>`:
`{ lat, lng, time: Timestamp.now() }`. -/
structure LocationReport where
  lat : Rat
  lng : Rat
  time : Nat
deriving DecidableEq, Repr

/-- The Firebase realtime-database state used by `src/index.js`,
one field per path family. -/
structure DB where
  /-- `device-user/<deviceId>` — the device → user direction. -/
  devUser : String → Option String
  /-- `users/<userId>/deviceId` — the user → device direction. -/
  userDev : String → Option String
  /-- `users/<userId>/locationRequest` — pending location request flag. -/
  locationRequest : String → Option Bool
  /-- `devices/<deviceId>` — the pushed location report sequence. -/
  reports : String → List LocationReport
  /-- `users/<userId>/detectedFaces` — cached recognition labels. -/
  detectedFaces : String → Option (List String)

/-- The database with nothing stored at any path. -/
def emptyDB : DB :=
  { devUser := fun _ => none
    userDev := fun _ => none
    locationRequest := fun _ => none
    reports := fun _ => []
    detectedFaces := fun _ => none }

/-- `ref.set(v)` on a string-keyed path family (`set(null)` is `upd m k none`). -/
def upd {α : Type} (m : String → Option α) (k : String) (v : Option α) :
    String → Option α :=
  fun x => if x = k then v else m x

/-- `POST /deviceId` (`src/index.js:211-245`): validate the length, reject
an already-owned id with 409, clear the reverse entry of the caller's old
device if any, then write `users/<userId>/deviceId = newDeviceId` and
`device-user/<newDeviceId> = userId`. -/
def rebindDevice (db : DB) (userId newDeviceId : String) :
    Except ExpressError Unit × DB :=
  if newDeviceId.length ≠ 6 then
    (.error lengthError, db)
  else if (db.devUser newDeviceId).isSome then
    (.error ownedError, db)
  else
    let db1 :=
      match db.userDev userId with
      | some old => { db with devUser := upd db.devUser old none }
      | none => db
    (.ok (), { db1 with
        userDev := upd db1.userDev userId (some newDeviceId)
        devUser := upd db1.devUser newDeviceId (some userId) })

/-- Pure lookup `device-user/<deviceId>` (spec §4.1 `ResolveUserByDevice`). -/
def resolveUserByDevice (db : DB) (deviceId : String) : Option String :=
  db.devUser deviceId

/-- Pure lookup `users/<userId>/deviceId` (spec §4.1 `ResolveDeviceByUser`). -/
def resolveDeviceByUser (db : DB) (userId : String) : Option String :=
  db.userDev userId

/-- Run a sequence of `POST /deviceId` calls against the initially empty
registry, threading the state; a failed call leaves the state unchanged. -/
def runRebinds (calls : List (String × String)) : DB :=
  calls.foldl (fun db c => (rebindDevice db c.1 c.2).2) emptyDB

/-- The mutual-inverse invariant of the two registry directions. -/
def RegInv (db : DB) : Prop :=
  ∀ u d, db.userDev u = some d ↔ db.devUser d = some u

/-- A registry state in which device `"AB12CD"` is bound to `"user1"`:
the state left by a successful `Rebind("user1", "AB12CD")` on the empty
registry. -/
def demoDB : DB := (rebindDevice emptyDB "user1" "AB12CD").2

/-- `GET /set-location-request` (`src/index.js:63-88`): `req.query.deviceId`
is either absent (`none`) or a string; the JavaScript guard `if (!deviceId)`
treats the empty string exactly like an absent parameter.  An unbound device
yields the 404 error; otherwise `users/<userId>/locationRequest` is set to
`true`. -/
def setLocationRequest (db : DB) (deviceId : Option String) :
    Except ExpressError Unit × DB :=
  match deviceId with
  | none => (.error noDeviceIdError, db)
  | some d =>
    if d = "" then
      (.error noDeviceIdError, db)
    else
      match db.devUser d with
      | none => (.error noUserForDeviceError, db)
      | some u =>
        (.ok (), { db with locationRequest := upd db.locationRequest u (some true) })

/-- `POST /location` (`src/index.js:91-124`): resolve the caller's device,
404 if none; push `{lat, lng, time: now}` onto `devices/<deviceId>` and
set `users/<userId>/locationRequest` to `null`. -/
def postLocation (db : DB) (userId : String) (lat lng : Rat) (now : Nat) :
    Except ExpressError Unit × DB :=
  match db.userDev userId with
  | none => (.error noDeviceError, db)
  | some d =>
    (.ok (), { db with
        reports := fun k => if k = d then db.reports d ++ [⟨lat, lng, now⟩] else db.reports k
        locationRequest := upd db.locationRequest userId none })

/-- Modelled from the spec: the Matcher (§4.4) is implemented by the
external `face-api.js` library (`new faceapi.FaceMatcher(transformed_faces,
0.6)` and `faceMatcher.findBestMatch`), whose code is not part of this
repository; only the 0.6 threshold and the template data come from
`src/index.js:177-195`.  Per the spec a template is a label with its
reference embeddings. -/
structure FaceTemplate where
  label : String
  embeddings : List (List Rat)
deriving DecidableEq, Repr

/-- Squared Euclidean distance between two descriptor vectors.  Distances
are compared squared so the development stays inside the rationals; since
Euclidean distance is nonnegative and squaring is strictly monotone on
nonnegatives, `dist > 0.6` holds exactly when `dist² > 0.36`. -/
def sqDist (a b : List Rat) : Rat :=
  ((a.zip b).map (fun p => (p.1 - p.2) ^ 2)).sum

/-- The squared rejection threshold: `0.6² = 9/25`. -/
def matchThresholdSq : Rat := 9 / 25

/-- Modelled from the spec: every reference embedding across all labels,
paired with its owning label and its squared distance to the probe, in
template enumeration order. -/
def candidates (ts : List FaceTemplate) (probe : List Rat) : List (String × Rat) :=
  (ts.map (fun t => t.embeddings.map (fun e => (t.label, sqDist probe e)))).flatten

/-- Fold that keeps the strictly closer candidate, so on a tie the
first-seen label wins (spec §4.4 tie-breaking). -/
def pickBest (c : String × Rat) : List (String × Rat) → String × Rat
  | [] => c
  | x :: xs => pickBest (if x.2 < c.2 then x else c) xs

/-- Modelled from the spec: the result label for one probe embedding — the
label owning the reference embedding at minimum distance, or the sentinel
`"unknown"` when that minimum exceeds the rejection threshold (or when
there is no reference embedding at all). -/
def findBestMatch (ts : List FaceTemplate) (probe : List Rat) : String :=
  match candidates ts probe with
  | [] => "unknown"
  | c :: cs =>
    let best := pickBest c cs
    if matchThresholdSq < best.2 then "unknown" else best.1

/-- A face template subdocument of a MongoDB user record
(`models/userModel.js` via its use in `src/index.js`): a label and the
per-sample descriptor vectors; the Mongo-generated `_id` is modelled by a
fresh counter value. -/
structure FaceDoc where
  id : Nat
  label : String
  descriptions : List (List Rat)
deriving DecidableEq, Repr

/-- A MongoDB user record: `userId` and the `faces` template collection. -/
structure UserDoc where
  userId : String
  faces : List FaceDoc
deriving DecidableEq, Repr

/-- The MongoDB collection state, plus the counter modelling `_id`
generation for face subdocuments. -/
structure Mongo where
  users : List UserDoc
  nextId : Nat
deriving DecidableEq, Repr

/-- The empty collection. -/
def emptyMongo : Mongo := ⟨[], 0⟩

/-- `User.findOne({ userId })`: the first record with this `userId`. -/
def findOne (m : Mongo) (userId : String) : Option UserDoc :=
  m.users.find? (fun doc => doc.userId == userId)

/-- Saving a modified user document: replace the first record whose
`userId` matches (the one `findOne` returned). -/
def updateUser (users : List UserDoc) (userId : String) (g : UserDoc → UserDoc) :
    List UserDoc :=
  match users with
  | [] => []
  | doc :: rest =>
    if doc.userId == userId then g doc :: rest
    else doc :: updateUser rest userId g

/-- The `if (!existingUser) { existingUser = new User({ userId }); await
existingUser.save(); }` prologue shared by `/new-face-base64` (and
`/faces`): create an empty user record when none exists. -/
def ensureUser (m : Mongo) (userId : String) : Mongo :=
  match findOne m userId with
  | some _ => m
  | none => { m with users := m.users ++ [⟨userId, []⟩] }

/-- The face collection of a user, `[]` when no record exists. -/
def facesOf (m : Mongo) (userId : String) : List FaceDoc :=
  ((findOne m userId).map UserDoc.faces).getD []

/-- `POST /new-face-base64` (`src/index.js:248-299`): decode the three
request fields `encoded`, `encoded2`, `encoded3`, ensure a user record
exists, run the Embedding Provider on each image in order, and append one
new template `{label, descriptions}` on success.  The provider argument
stands for the external `detectSingleFace(...).withFaceDescriptor()`
composed with base64 decoding and image loading: it returns at most one
descriptor per image.  When it yields zero detections the handler
evaluates `detections.descriptor` on `undefined`, raising the `TypeError`
that `catchAsync` forwards to the error middleware — the loop does not
skip the sample. -/
def newFaceBase64 (provider : String → Option (List Rat)) (m : Mongo)
    (userId label encoded encoded2 encoded3 : String) :
    Except ExpressError Unit × Mongo :=
  let m1 := ensureUser m userId
  match provider encoded with
  | none => (.error descriptorTypeError, m1)
  | some d1 =>
    match provider encoded2 with
    | none => (.error descriptorTypeError, m1)
    | some d2 =>
      match provider encoded3 with
      | none => (.error descriptorTypeError, m1)
      | some d3 =>
        (.ok (), { m1 with
            users := updateUser m1.users userId
              (fun doc => { doc with faces := doc.faces ++ [⟨m1.nextId, label, [d1, d2, d3]⟩] })
            nextId := m1.nextId + 1 })

/-- `POST /delete-face` (`src/index.js:325-342`): 401 when no user record
exists; otherwise `updateOne({ $pull: { faces: { _id: faceId } } })`,
which removes every face whose `_id` equals `faceId` and signals nothing
when there is no match. -/
def deleteFace (m : Mongo) (userId : String) (faceId : Nat) :
    Except ExpressError Unit × Mongo :=
  match findOne m userId with
  | none => (.error noUserError, m)
  | some _ =>
    (.ok (), { m with
        users := updateUser m.users userId
          (fun doc => { doc with faces := doc.faces.filter (fun f => f.id != faceId) }) })

/-- An Embedding Provider that detects a face in every sample except
`"b"`, where it detects none. -/
def skipProvider : String → Option (List Rat) :=
  fun s => if s = "b" then none else some [0]

/-- A collection holding one user `"u1"` with a single enrolled template. -/
def demoMongo : Mongo := ⟨[⟨"u1", [⟨0, "Alice", [[0]]⟩]⟩], 1⟩

/-- `POST /recognise-face` (`src/index.js:141-208`): `device-user/<deviceId>`
is read with `.val()`, which yields `null` when the path is empty or the
query parameter is missing; `User.findOne({ userId: null })` then matches
no stored record, so an unbound device funnels into the very same
`"No user found."` 401 error as a bound device whose user has no record —
there is no separate unbound-device check.  On success the user's
templates feed the (spec-modelled) matcher once per face the provider
detects in the probe image, the resulting label list is cached at
`users/<userId>/detectedFaces`, and the results are returned. -/
def recogniseFace (provider : String → List (List Rat)) (db : DB) (m : Mongo)
    (deviceId : Option String) (image : String) :
    Except ExpressError (List String) × DB :=
  match deviceId.bind db.devUser with
  | none => (.error noUserError, db)
  | some uid =>
    match findOne m uid with
    | none => (.error noUserError, db)
    | some doc =>
      let templates := doc.faces.map (fun f => FaceTemplate.mk f.label f.descriptions)
      let labels := (provider image).map (fun probe => findBestMatch templates probe)
      (.ok labels, { db with detectedFaces := upd db.detectedFaces uid (some labels) })

theorem regInv_empty : RegInv emptyDB := by
  intro u d
  simp [emptyDB]

theorem rebindDevice_length_eq (db : DB) (u d : String) (hlen : d.length ≠ 6) :
    rebindDevice db u d = (.error lengthError, db) := by
  simp [rebindDevice, hlen]

theorem rebindDevice_owned_eq (db : DB) (u d : String) (hlen : d.length = 6)
    (howned : (db.devUser d).isSome) :
    rebindDevice db u d = (.error ownedError, db) := by
  simp [rebindDevice, hlen, howned]

theorem rebindDevice_ok_none_eq (db : DB) (u d : String) (hlen : d.length = 6)
    (hnone : db.devUser d = none) (hold : db.userDev u = none) :
    rebindDevice db u d = (.ok (), { db with
        userDev := upd db.userDev u (some d)
        devUser := upd db.devUser d (some u) }) := by
  simp [rebindDevice, hlen, hnone, hold]

theorem rebindDevice_ok_some_eq (db : DB) (u d old : String) (hlen : d.length = 6)
    (hnone : db.devUser d = none) (hold : db.userDev u = some old) :
    rebindDevice db u d = (.ok (), { db with
        userDev := upd db.userDev u (some d)
        devUser := upd (upd db.devUser old none) d (some u) }) := by
  simp [rebindDevice, hlen, hnone, hold]

theorem rebindDevice_regInv (db : DB) (u d : String) (h : RegInv db) :
    RegInv (rebindDevice db u d).2 := by
  by_cases hlen : d.length = 6
  · by_cases howned : (db.devUser d).isSome
    · rw [rebindDevice_owned_eq db u d hlen howned]
      exact h
    · have hnone : db.devUser d = none := by
        cases hd : db.devUser d with
        | none => rfl
        | some v => rw [hd] at howned; simp at howned
      cases hold : db.userDev u with
      | none =>
        rw [rebindDevice_ok_none_eq db u d hlen hnone hold]
        intro u' d'
        show (if u' = u then some d else db.userDev u') = some d' ↔
            (if d' = d then some u else db.devUser d') = some u'
        split_ifs with h1 h2 h2
        · rw [h1, h2]
          simp
        · constructor
          · intro hh
            exact absurd (Option.some.inj hh).symm h2
          · intro hh
            rw [h1] at hh
            have := (h u d').mpr hh
            rw [hold] at this
            cases this
        · constructor
          · intro hh
            rw [h2] at hh
            have := (h u' d).mp hh
            rw [hnone] at this
            cases this
          · intro hh
            exact absurd (Option.some.inj hh).symm h1
        · exact h u' d'
      | some old =>
        have hrev : db.devUser old = some u := (h u old).mp hold
        have hne : old ≠ d := by
          intro e
          rw [e, hnone] at hrev
          cases hrev
        rw [rebindDevice_ok_some_eq db u d old hlen hnone hold]
        intro u' d'
        show (if u' = u then some d else db.userDev u') = some d' ↔
            (if d' = d then some u else if d' = old then none else db.devUser d') = some u'
        split_ifs with h1 h2 h3 h2 h3
        · rw [h1, h2]
          simp
        · constructor
          · intro hh
            have hdd : d = d' := Option.some.inj hh
            rw [h3] at hdd
            exact hne hdd.symm
          · intro hh
            simp at hh
        · constructor
          · intro hh
            exact absurd (Option.some.inj hh).symm h2
          · intro hh
            rw [h1] at hh
            have := (h u d').mpr hh
            rw [hold] at this
            exact absurd (Option.some.inj this).symm h3
        · constructor
          · intro hh
            rw [h2] at hh
            have := (h u' d).mp hh
            rw [hnone] at this
            cases this
          · intro hh
            exact absurd (Option.some.inj hh).symm h1
        · constructor
          · intro hh
            rw [h3] at hh
            have := (h u' old).mp hh
            rw [hrev] at this
            exact absurd (Option.some.inj this).symm h1
          · intro hh
            simp at hh
        · exact h u' d'
  · rw [rebindDevice_length_eq db u d hlen]
    exact h

theorem runRebinds_regInv (calls : List (String × String)) :
    RegInv (runRebinds calls) := by
  suffices h : ∀ db, RegInv db →
      RegInv (calls.foldl (fun db c => (rebindDevice db c.1 c.2).2) db) from
    h emptyDB regInv_empty
  induction calls with
  | nil =>
    intro db hdb
    exact hdb
  | cons c rest ih =>
    intro db hdb
    exact ih _ (rebindDevice_regInv db c.1 c.2 hdb)

/-- C1: for every sequence of completed `Rebind` calls starting from the
empty registry, the device→user and user→device maps are mutually inverse
(round trips restore the key in both directions) and each direction is
injective (no device bound to two users, no user bound to two devices). -/
theorem C1_rebind_bijection_invariant (calls : List (String × String)) :
    (∀ u d, resolveDeviceByUser (runRebinds calls) u = some d →
        resolveUserByDevice (runRebinds calls) d = some u)
    ∧ (∀ d u, resolveUserByDevice (runRebinds calls) d = some u →
        resolveDeviceByUser (runRebinds calls) u = some d)
    ∧ (∀ d u u', resolveUserByDevice (runRebinds calls) d = some u →
        resolveUserByDevice (runRebinds calls) d = some u' → u = u')
    ∧ (∀ u d d', resolveDeviceByUser (runRebinds calls) u = some d →
        resolveDeviceByUser (runRebinds calls) u = some d' → d = d')
    ∧ (∀ d d' u, resolveUserByDevice (runRebinds calls) d = some u →
        resolveUserByDevice (runRebinds calls) d' = some u → d = d')
    ∧ (∀ u u' d, resolveDeviceByUser (runRebinds calls) u = some d →
        resolveDeviceByUser (runRebinds calls) u' = some d → u = u') := by
  have hinv := runRebinds_regInv calls
  refine ⟨?_, ?_, ?_, ?_, ?_, ?_⟩
  · intro u d hd
    exact (hinv u d).mp hd
  · intro d u hd
    exact (hinv u d).mpr hd
  · intro d u u' h1 h2
    rw [h1] at h2
    exact Option.some.inj h2
  · intro u d d' h1 h2
    rw [h1] at h2
    exact Option.some.inj h2
  · intro d d' u h1 h2
    have e1 := (hinv u d).mpr h1
    have e2 := (hinv u d').mpr h2
    rw [e1] at e2
    exact Option.some.inj e2
  · intro u u' d h1 h2
    have e1 := (hinv u d).mp h1
    have e2 := (hinv u' d).mp h2
    rw [e1] at e2
    exact Option.some.inj e2

theorem C1_rebind_bijection_invariant_witness :
    resolveDeviceByUser (runRebinds [("user1", "AB12CD")]) "user1" = some "AB12CD"
    ∧ resolveUserByDevice (runRebinds [("user1", "AB12CD")]) "AB12CD" = some "user1" :=
  ⟨by rfl,
   (C1_rebind_bijection_invariant [("user1", "AB12CD")]).1 "user1" "AB12CD" (by rfl)⟩

/-- C2 counterexample: `Rebind` does NOT fail with `Conflict` only when the
device is bound to a *different* user.  In the state where `"AB12CD"` is
bound to `"user1"`, `Rebind("user1", "AB12CD")` — the same user — is also
rejected with the 409 conflict error, because the handler only checks
`device-user/<newDeviceId>` for existence and never compares the owner to
the caller. -/
theorem C2_conflict_counterexample :
    (rebindDevice demoDB "user1" "AB12CD").1 = .error ownedError
    ∧ resolveUserByDevice demoDB "AB12CD" = some "user1"
    ∧ ¬ (∃ u', resolveUserByDevice demoDB "AB12CD" = some u' ∧ u' ≠ "user1") := by
  refine ⟨by rfl, by rfl, ?_⟩
  rintro ⟨u', hu', hne⟩
  have hu : resolveUserByDevice demoDB "AB12CD" = some "user1" := by rfl
  have := hu.symm.trans hu'
  exact hne (Option.some.inj this).symm

/-- C2 (amended): for a 6-character `newDeviceId`, `Rebind(userId,
newDeviceId)` fails with the 409 conflict error iff `newDeviceId` is
currently bound to *some* user — any user, including `userId` itself; in
particular the spec scenario (second user rejected, binding intact) holds,
as the witness shows. -/
theorem C2_conflict_iff_owned (db : DB) (userId newDeviceId : String)
    (hlen : newDeviceId.length = 6) :
    (rebindDevice db userId newDeviceId).1 = .error ownedError
      ↔ (resolveUserByDevice db newDeviceId).isSome := by
  constructor
  · intro hh
    by_contra hno
    have hnone : db.devUser newDeviceId = none :=
      Option.not_isSome_iff_eq_none.mp hno
    cases hold : db.userDev userId with
    | none =>
      rw [rebindDevice_ok_none_eq db userId newDeviceId hlen hnone hold] at hh
      cases hh
    | some old =>
      rw [rebindDevice_ok_some_eq db userId newDeviceId old hlen hnone hold] at hh
      cases hh
  · intro hs
    rw [rebindDevice_owned_eq db userId newDeviceId hlen hs]

theorem C2_conflict_iff_owned_witness :
    ("AB12CD" : String).length = 6
    ∧ ((rebindDevice demoDB "user2" "AB12CD").1 = .error ownedError
        ↔ (resolveUserByDevice demoDB "AB12CD").isSome) :=
  ⟨rfl, C2_conflict_iff_owned demoDB "user2" "AB12CD" rfl⟩

/-- C3: `Rebind` is atomic.  On any error — which is always the length
error or the conflict error — the whole state is exactly the state before
the call; on success the forward binding, the reverse binding, and the
clearing of the old device's reverse entry are all installed. -/
theorem C3_rebind_atomic (db : DB) (userId newDeviceId : String) :
    (∀ e, (rebindDevice db userId newDeviceId).1 = .error e →
        (rebindDevice db userId newDeviceId).2 = db
        ∧ (e = lengthError ∨ e = ownedError))
    ∧ (∀ r, (rebindDevice db userId newDeviceId).1 = .ok r →
        resolveDeviceByUser (rebindDevice db userId newDeviceId).2 userId = some newDeviceId
        ∧ resolveUserByDevice (rebindDevice db userId newDeviceId).2 newDeviceId = some userId
        ∧ ∀ old, db.userDev userId = some old → old ≠ newDeviceId →
            resolveUserByDevice (rebindDevice db userId newDeviceId).2 old = none) := by
  by_cases hlen : newDeviceId.length = 6
  · by_cases howned : (db.devUser newDeviceId).isSome
    · rw [rebindDevice_owned_eq db userId newDeviceId hlen howned]
      refine ⟨?_, ?_⟩
      · intro e he
        exact ⟨rfl, Or.inr (Except.error.inj he).symm⟩
      · intro r hr
        cases hr
    · have hnone : db.devUser newDeviceId = none :=
        Option.not_isSome_iff_eq_none.mp howned
      cases hold : db.userDev userId with
      | none =>
        rw [rebindDevice_ok_none_eq db userId newDeviceId hlen hnone hold]
        refine ⟨?_, ?_⟩
        · intro e he
          cases he
        · intro r _
          refine ⟨?_, ?_, ?_⟩
          · show (if userId = userId then some newDeviceId else db.userDev userId)
                = some newDeviceId
            rw [if_pos rfl]
          · show (if newDeviceId = newDeviceId then some userId else db.devUser newDeviceId)
                = some userId
            rw [if_pos rfl]
          · intro old hold' _
            cases hold'
      | some old0 =>
        rw [rebindDevice_ok_some_eq db userId newDeviceId old0 hlen hnone hold]
        refine ⟨?_, ?_⟩
        · intro e he
          cases he
        · intro r _
          refine ⟨?_, ?_, ?_⟩
          · show (if userId = userId then some newDeviceId else db.userDev userId)
                = some newDeviceId
            rw [if_pos rfl]
          · show (if newDeviceId = newDeviceId then some userId
                else if newDeviceId = old0 then none else db.devUser newDeviceId)
                = some userId
            rw [if_pos rfl]
          · intro old hold' hne
            have hoo : old = old0 := Option.some.inj hold'.symm
            show (if old = newDeviceId then some userId
                else if old = old0 then none else db.devUser old) = none
            rw [if_neg hne, if_pos hoo]
  · rw [rebindDevice_length_eq db userId newDeviceId hlen]
    refine ⟨?_, ?_⟩
    · intro e he
      exact ⟨rfl, Or.inl (Except.error.inj he).symm⟩
    · intro r hr
      cases hr

theorem C3_rebind_atomic_witness :
    resolveDeviceByUser (rebindDevice emptyDB "user1" "AB12CD").2 "user1" = some "AB12CD"
    ∧ resolveUserByDevice (rebindDevice emptyDB "user1" "AB12CD").2 "AB12CD" = some "user1" :=
  ⟨((C3_rebind_atomic emptyDB "user1" "AB12CD").2 () (by rfl)).1,
   ((C3_rebind_atomic emptyDB "user1" "AB12CD").2 () (by rfl)).2.1⟩

theorem setLocationRequest_unbound_eq (db : DB) (d : String) (hne : d ≠ "")
    (hnou : db.devUser d = none) :
    setLocationRequest db (some d) = (.error noUserForDeviceError, db) := by
  simp [setLocationRequest, hne, hnou]

theorem setLocationRequest_bound_eq (db : DB) (d u : String) (hne : d ≠ "")
    (hu : db.devUser d = some u) :
    setLocationRequest db (some d)
      = (.ok (), { db with locationRequest := upd db.locationRequest u (some true) }) := by
  simp [setLocationRequest, hne, hu]

/-- C5 counterexample: `RequestLocation` with an empty-string device id
does fail, but with the status-less "You must provide a device id!" error,
which the error middleware reports as 500 — not as the 404 `NotFound`
that the unbound-device case gets. -/
theorem C5_request_location_counterexample :
    (setLocationRequest emptyDB (some "")).1 = .error noDeviceIdError
    ∧ handledStatus noDeviceIdError = 500
    ∧ (setLocationRequest (rebindDevice emptyDB "user1" "AB12CD").2 (some "ZZ99XX")).1
        = .error noUserForDeviceError
    ∧ handledStatus noUserForDeviceError = 404
    ∧ noDeviceIdError ≠ noUserForDeviceError := by
  refine ⟨by rfl, by rfl, by rfl, by rfl, by decide⟩

/-- C5 (amended): `RequestLocation(deviceId)` fails with the status-less
"You must provide a device id!" error (mapped to 500, not `NotFound`) when
`deviceId` is absent or the empty string — the two being treated
identically — fails with the 404 `NotFound` error when the device is
unbound, and otherwise sets the resolved user's `locationRequest` flag to
`true` and succeeds. -/
theorem C5_request_location_cases (db : DB) (deviceId : Option String) :
    ((deviceId = none ∨ deviceId = some "") →
        setLocationRequest db deviceId = (.error noDeviceIdError, db))
    ∧ (∀ d, deviceId = some d → d ≠ "" → db.devUser d = none →
        setLocationRequest db deviceId = (.error noUserForDeviceError, db))
    ∧ (∀ d u, deviceId = some d → d ≠ "" → db.devUser d = some u →
        (setLocationRequest db deviceId).1 = .ok ()
        ∧ (setLocationRequest db deviceId).2.locationRequest u = some true
        ∧ (setLocationRequest db deviceId).2.devUser = db.devUser
        ∧ (setLocationRequest db deviceId).2.userDev = db.userDev) := by
  refine ⟨?_, ?_, ?_⟩
  · intro hd
    cases hd with
    | inl hnone => rw [hnone]; rfl
    | inr hempty => rw [hempty]; rfl
  · intro d hd hne hnou
    rw [hd]
    exact setLocationRequest_unbound_eq db d hne hnou
  · intro d u hd hne hu
    rw [hd, setLocationRequest_bound_eq db d u hne hu]
    refine ⟨rfl, ?_, rfl, rfl⟩
    show (if u = u then some true else db.locationRequest u) = some true
    rw [if_pos rfl]

theorem C5_request_location_cases_witness :
    setLocationRequest emptyDB (some "") = (.error noDeviceIdError, emptyDB)
    ∧ (setLocationRequest demoDB (some "AB12CD")).1 = .ok ()
    ∧ (setLocationRequest demoDB (some "AB12CD")).2.locationRequest "user1" = some true :=
  ⟨(C5_request_location_cases emptyDB (some "")).1 (Or.inr rfl),
   ((C5_request_location_cases demoDB (some "AB12CD")).2.2 "AB12CD" "user1" rfl
      (by decide) (by rfl)).1,
   ((C5_request_location_cases demoDB (some "AB12CD")).2.2 "AB12CD" "user1" rfl
      (by decide) (by rfl)).2.1⟩

/-- C6: `ReportLocation(userId, lat, lng)` fails with the 404 error when
the user has no bound device; otherwise it appends `{lat, lng, time=now}`
to the bound device's report sequence — every previously appended report
staying in place, so sequence order is append order — and clears the
user's `locationRequest` flag. -/
theorem C6_report_location (db : DB) (userId : String) (lat lng : Rat) (now : Nat) :
    (db.userDev userId = none →
        postLocation db userId lat lng now = (.error noDeviceError, db))
    ∧ (∀ d, db.userDev userId = some d →
        (postLocation db userId lat lng now).1 = .ok ()
        ∧ (postLocation db userId lat lng now).2.reports d
            = db.reports d ++ [⟨lat, lng, now⟩]
        ∧ (∀ i : Nat, ∀ hi : i < (db.reports d).length,
            ((postLocation db userId lat lng now).2.reports d).get?  i = some ((db.reports d).get ⟨i, hi⟩))
        ∧ (postLocation db userId lat lng now).2.locationRequest userId = none
        ∧ (∀ d', d' ≠ d → (postLocation db userId lat lng now).2.reports d' = db.reports d')) := by
  refine ⟨?_, ?_⟩
  · intro hnone
    unfold postLocation
    rw [hnone]
  · intro d hd
    unfold postLocation
    rw [hd]
    refine ⟨rfl, ?_, ?_, ?_, ?_⟩
    · show (if d = d then db.reports d ++ [⟨lat, lng, now⟩] else db.reports d)
          = db.reports d ++ [⟨lat, lng, now⟩]
      rw [if_pos rfl]
    · intro i hi
      show (if d = d then db.reports d ++ [⟨lat, lng, now⟩] else db.reports d).get?  i
          = some ((db.reports d).get ⟨i, hi⟩)
      rw [if_pos rfl]
      rw [List.get?_eq_getElem?, List.getElem?_append_left hi,
        List.getElem?_eq_getElem hi]
      rfl
    · show (if userId = userId then none else db.locationRequest userId) = none
      rw [if_pos rfl]
    · intro d' hne
      show (if d' = d then db.reports d ++ [⟨lat, lng, now⟩] else db.reports d') = db.reports d'
      rw [if_neg hne]

theorem pickBest_mem (c : String × Rat) (cs : List (String × Rat)) :
    pickBest c cs = c ∨ pickBest c cs ∈ cs := by
  induction cs generalizing c with
  | nil => exact Or.inl rfl
  | cons x xs ih =>
    rw [pickBest]
    rcases ih (if x.2 < c.2 then x else c) with h | h
    · rw [h]
      by_cases hx : x.2 < c.2
      · rw [if_pos hx]
        exact Or.inr (List.mem_cons_self x xs)
      · rw [if_neg hx]
        exact Or.inl rfl
    · exact Or.inr (List.mem_cons_of_mem x h)

theorem pickBest_le (c : String × Rat) (cs : List (String × Rat)) :
    (pickBest c cs).2 ≤ c.2 ∧ ∀ x ∈ cs, (pickBest c cs).2 ≤ x.2 := by
  induction cs generalizing c with
  | nil => exact ⟨le_refl _, fun x hx => absurd hx (List.not_mem_nil x)⟩
  | cons x xs ih =>
    rw [pickBest]
    obtain ⟨h1, h2⟩ := ih (if x.2 < c.2 then x else c)
    have hc : (if x.2 < c.2 then x else c).2 ≤ c.2 := by
      by_cases hx : x.2 < c.2
      · rw [if_pos hx]
        exact le_of_lt hx
      · rw [if_neg hx]
    have hx2 : (if x.2 < c.2 then x else c).2 ≤ x.2 := by
      by_cases hx : x.2 < c.2
      · rw [if_pos hx]
      · rw [if_neg hx]
        exact le_of_not_lt hx
    refine ⟨le_trans h1 hc, ?_⟩
    intro y hy
    rcases List.mem_cons.mp hy with hyx | hy'
    · rw [hyx]
      exact le_trans h1 hx2
    · exact h2 y hy'

theorem exists_of_mem_candidates (ts : List FaceTemplate) (probe : List Rat)
    (x : String × Rat) (hx : x ∈ candidates ts probe) :
    ∃ t ∈ ts, ∃ e ∈ t.embeddings, x = (t.label, sqDist probe e) := by
  unfold candidates at hx
  rw [List.mem_flatten] at hx
  obtain ⟨l, hl, hxl⟩ := hx
  rw [List.mem_map] at hl
  obtain ⟨t, ht, rfl⟩ := hl
  rw [List.mem_map] at hxl
  obtain ⟨e, he, rfl⟩ := hxl
  exact ⟨t, ht, e, he, rfl⟩

/-- C4 (spec-modelled): with at least one reference embedding present —
if every reference embedding lies strictly beyond the 0.6 rejection
threshold (squared: 9/25), the result label is the sentinel `"unknown"`;
and if the minimum distance is within the threshold (witnessed by any
candidate within it), the result is the label of a template owning a
reference embedding at minimum distance to the probe. -/
theorem C4_rejection_threshold (ts : List FaceTemplate) (probe : List Rat)
    (h : candidates ts probe ≠ []) :
    ((∀ c ∈ candidates ts probe, matchThresholdSq < c.2) →
        findBestMatch ts probe = "unknown")
    ∧ (∀ cm ∈ candidates ts probe, cm.2 ≤ matchThresholdSq →
        ∃ t ∈ ts, ∃ e ∈ t.embeddings,
          findBestMatch ts probe = t.label
          ∧ ∀ c ∈ candidates ts probe, sqDist probe e ≤ c.2) := by
  cases hcand : candidates ts probe with
  | nil => exact absurd hcand h
  | cons c cs =>
    have hmem : pickBest c cs ∈ c :: cs := by
      rcases pickBest_mem c cs with h1 | h1
      · rw [h1]
        exact List.mem_cons_self c cs
      · exact List.mem_cons_of_mem c h1
    have hle : ∀ x ∈ c :: cs, (pickBest c cs).2 ≤ x.2 := by
      intro x hx
      rcases List.mem_cons.mp hx with hxc | hxs
      · rw [hxc]
        exact (pickBest_le c cs).1
      · exact (pickBest_le c cs).2 x hxs
    have hfbm : findBestMatch ts probe
        = if matchThresholdSq < (pickBest c cs).2 then "unknown"
          else (pickBest c cs).1 := by
      unfold findBestMatch
      rw [hcand]
    constructor
    · intro hall
      rw [hfbm, if_pos (hall _ hmem)]
    · intro cm hcm hcmle
      have hnot : ¬ matchThresholdSq < (pickBest c cs).2 :=
        not_lt.mpr (le_trans (hle cm hcm) hcmle)
      obtain ⟨t, ht, e, he, heq⟩ := exists_of_mem_candidates ts probe _
        (by rw [hcand]; exact hmem)
      refine ⟨t, ht, e, he, ?_, ?_⟩
      · rw [hfbm, if_neg hnot, heq]
      · intro c' hc'
        have hmin := hle c' hc'
        rw [heq] at hmin
        exact hmin

theorem C4_rejection_threshold_witness :
    candidates [⟨"Alice", [[7/10]]⟩] [0] ≠ []
    ∧ findBestMatch [⟨"Alice", [[7/10]]⟩] [0] = "unknown" := by
  have hne : candidates [⟨"Alice", [[7/10]]⟩] [0] ≠ [] := by
    simp [candidates]
  refine ⟨hne, (C4_rejection_threshold [⟨"Alice", [[7/10]]⟩] [0] hne).1 ?_⟩
  intro c hc
  have hc' : c = ("Alice", sqDist [0] [7/10]) := by
    simpa [candidates] using hc
  rw [hc']
  show matchThresholdSq < sqDist [0] [7/10]
  norm_num [matchThresholdSq, sqDist]

theorem find?_updateUser (users : List UserDoc) (u : String) (g : UserDoc → UserDoc)
    (hg : ∀ doc, (g doc).userId = doc.userId) :
    (updateUser users u g).find? (fun doc => doc.userId == u)
      = (users.find? (fun doc => doc.userId == u)).map g := by
  induction users with
  | nil => rfl
  | cons doc rest ih =>
    by_cases hd : (doc.userId == u) = true
    · rw [updateUser, if_pos hd]
      rw [List.find?_cons_of_pos (p := fun d : UserDoc => d.userId == u) _
        (by simpa [hg] using hd)]
      rw [List.find?_cons_of_pos (p := fun d : UserDoc => d.userId == u) _ hd]
      rfl
    · rw [updateUser, if_neg hd]
      rw [List.find?_cons_of_neg (p := fun d : UserDoc => d.userId == u) _ hd]
      rw [List.find?_cons_of_neg (p := fun d : UserDoc => d.userId == u) _ hd]
      exact ih

theorem ensureUser_nextId (m : Mongo) (u : String) :
    (ensureUser m u).nextId = m.nextId := by
  unfold ensureUser
  cases findOne m u <;> rfl

theorem findOne_ensureUser (m : Mongo) (u : String) :
    findOne (ensureUser m u) u = some ⟨u, facesOf m u⟩ := by
  unfold ensureUser
  cases hf : findOne m u with
  | some doc =>
    have hid : doc.userId = u := by
      have := List.find?_some hf
      simpa using this
    have hfaces : facesOf m u = doc.faces := by
      unfold facesOf
      rw [hf]
      rfl
    show findOne m u = some ⟨u, facesOf m u⟩
    rw [hf, hfaces, ← hid]
  | none =>
    have hfaces : facesOf m u = [] := by
      unfold facesOf
      rw [hf]
      rfl
    rw [hfaces]
    show (m.users ++ [(⟨u, []⟩ : UserDoc)]).find? (fun doc => doc.userId == u)
        = some (⟨u, []⟩ : UserDoc)
    rw [List.find?_append]
    have hnone : m.users.find? (fun doc => doc.userId == u) = none := hf
    rw [hnone, Option.none_or]
    simp [List.find?]

/-- C7 counterexample: an image with zero detections is NOT skipped.  With
a provider that detects nothing in the second of the three samples, the
enrollment call fails with the `TypeError` (reported as 500) and appends
no template at all — the user's collection stays empty — contradicting
"processing continues … and the call still appends a template containing
the embeddings of the successful samples". -/
theorem C7_enroll_skip_counterexample :
    (newFaceBase64 skipProvider emptyMongo "u1" "Alice" "a" "b" "c").1
        = .error descriptorTypeError
    ∧ findOne (newFaceBase64 skipProvider emptyMongo "u1" "Alice" "a" "b" "c").2 "u1"
        = some ⟨"u1", []⟩
    ∧ handledStatus descriptorTypeError = 500 :=
  ⟨rfl, rfl, rfl⟩

/-- C7 (amended): `EnrollFace` processes the three samples in input order
only up to the first image for which the Embedding Provider yields zero
detections; such an image makes the call fail with the `TypeError`-derived
500 error instead of being skipped, and no template is appended — the user
record (created first when absent) keeps its previous face collection. -/
theorem C7_enroll_zero_detection_fails (provider : String → Option (List Rat))
    (m : Mongo) (userId label e1 e2 e3 : String)
    (h : provider e1 = none ∨ provider e2 = none ∨ provider e3 = none) :
    (newFaceBase64 provider m userId label e1 e2 e3).1 = .error descriptorTypeError
    ∧ findOne (newFaceBase64 provider m userId label e1 e2 e3).2 userId
        = some ⟨userId, facesOf m userId⟩ := by
  unfold newFaceBase64
  cases he1 : provider e1 with
  | none => exact ⟨rfl, findOne_ensureUser m userId⟩
  | some d1 =>
    cases he2 : provider e2 with
    | none => exact ⟨rfl, findOne_ensureUser m userId⟩
    | some d2 =>
      cases he3 : provider e3 with
      | none => exact ⟨rfl, findOne_ensureUser m userId⟩
      | some d3 =>
        exfalso
        rcases h with h | h | h
        · rw [he1] at h
          cases h
        · rw [he2] at h
          cases h
        · rw [he3] at h
          cases h

theorem C7_enroll_zero_detection_fails_witness :
    (newFaceBase64 skipProvider demoMongo "u1" "Bob" "a" "b" "c").1
        = .error descriptorTypeError
    ∧ findOne (newFaceBase64 skipProvider demoMongo "u1" "Bob" "a" "b" "c").2 "u1"
        = some ⟨"u1", facesOf demoMongo "u1"⟩ :=
  C7_enroll_zero_detection_fails skipProvider demoMongo "u1" "Bob" "a" "b" "c"
    (Or.inr (Or.inl rfl))

/-- C8 counterexample: `DeleteFace` on a missing user record fails with
the "No user found." error carrying status 401 (`Unauthorized`), not the
404 `NotFound` the claim states. -/
theorem C8_delete_face_counterexample :
    (deleteFace emptyMongo "user1" 0).1 = .error noUserError
    ∧ handledStatus noUserError = 401
    ∧ handledStatus noUserError ≠ 404 :=
  ⟨rfl, rfl, by decide⟩

/-- C8 (amended): `DeleteFace(userId, faceId)` fails with the 401
"No user found." error (`Unauthorized`, not `NotFound`) and leaves the
store unchanged when no user record exists; otherwise it succeeds, the
user's collection becomes the previous collection with exactly the
templates whose id equals `faceId` removed, and when no template matches
the collection is left entirely unchanged with no error signalled. -/
theorem C8_delete_face_cases (m : Mongo) (u : String) (faceId : Nat) :
    (findOne m u = none →
        deleteFace m u faceId = (.error noUserError, m))
    ∧ (∀ doc, findOne m u = some doc →
        (deleteFace m u faceId).1 = .ok ()
        ∧ findOne (deleteFace m u faceId).2 u
            = some { doc with faces := doc.faces.filter (fun f => f.id != faceId) }
        ∧ ((∀ f ∈ doc.faces, f.id ≠ faceId) →
            findOne (deleteFace m u faceId).2 u = some doc)) := by
  refine ⟨?_, ?_⟩
  · intro hnone
    unfold deleteFace
    rw [hnone]
  · intro doc hdoc
    have hok : (deleteFace m u faceId).1 = .ok () := by
      unfold deleteFace
      rw [hdoc]
    have hkey : findOne (deleteFace m u faceId).2 u
        = some { doc with faces := doc.faces.filter (fun f => f.id != faceId) } := by
      unfold deleteFace
      rw [hdoc]
      show (updateUser m.users u
          (fun d => { d with faces := d.faces.filter (fun f => f.id != faceId) })).find?
          (fun d => d.userId == u)
        = some { doc with faces := doc.faces.filter (fun f => f.id != faceId) }
      rw [find?_updateUser m.users u
        (fun d => { d with faces := d.faces.filter (fun f => f.id != faceId) })
        (fun d => rfl)]
      rw [show m.users.find? (fun d => d.userId == u) = some doc from hdoc]
      rfl
    refine ⟨hok, hkey, ?_⟩
    intro hnomatch
    rw [hkey]
    have hfilter : doc.faces.filter (fun f => f.id != faceId) = doc.faces :=
      List.filter_eq_self.mpr (fun f hf => by simpa using hnomatch f hf)
    rw [hfilter]

theorem C8_delete_face_cases_witness :
    (deleteFace demoMongo "u1" 0).1 = .ok ()
    ∧ findOne (deleteFace demoMongo "u1" 0).2 "u1" = some ⟨"u1", []⟩ := by
  have h := (C8_delete_face_cases demoMongo "u1" 0).2 ⟨"u1", [⟨0, "Alice", [[0]]⟩]⟩ rfl
  exact ⟨h.1, by rw [h.2.1]; rfl⟩

/-- C9: `EnrollFace` consumes exactly the three request fields `encoded`,
`encoded2`, `encoded3`; when the provider detects a face in each, the call
succeeds and appends exactly one new template with the given label and the
three descriptors, to a user record that is created first when none exists
— unconditionally, so also when a template with the same label already
exists in the collection. -/
theorem C9_enroll_appends_one_template (provider : String → Option (List Rat))
    (m : Mongo) (userId label e1 e2 e3 : String) (d1 d2 d3 : List Rat)
    (h1 : provider e1 = some d1) (h2 : provider e2 = some d2)
    (h3 : provider e3 = some d3) :
    (newFaceBase64 provider m userId label e1 e2 e3).1 = .ok ()
    ∧ findOne (newFaceBase64 provider m userId label e1 e2 e3).2 userId
        = some ⟨userId, facesOf m userId ++ [⟨m.nextId, label, [d1, d2, d3]⟩]⟩ := by
  unfold newFaceBase64
  rw [h1, h2, h3]
  refine ⟨rfl, ?_⟩
  show (updateUser (ensureUser m userId).users userId
      (fun doc => { doc with
        faces := doc.faces ++ [⟨(ensureUser m userId).nextId, label, [d1, d2, d3]⟩] })).find?
      (fun d => d.userId == userId)
    = some ⟨userId, facesOf m userId ++ [⟨m.nextId, label, [d1, d2, d3]⟩]⟩
  rw [find?_updateUser (ensureUser m userId).users userId
    (fun doc => { doc with
      faces := doc.faces ++ [⟨(ensureUser m userId).nextId, label, [d1, d2, d3]⟩] })
    (fun d => rfl)]
  rw [show (ensureUser m userId).users.find? (fun d => d.userId == userId)
      = some ⟨userId, facesOf m userId⟩ from findOne_ensureUser m userId]
  rw [ensureUser_nextId]
  rfl

theorem C9_enroll_appends_one_template_witness :
    (newFaceBase64 (fun _ => some [0]) emptyMongo "u1" "Alice" "a" "b" "c").1 = .ok ()
    ∧ findOne (newFaceBase64 (fun _ => some [0]) emptyMongo "u1" "Alice" "a" "b" "c").2 "u1"
        = some ⟨"u1", facesOf emptyMongo "u1" ++ [⟨emptyMongo.nextId, "Alice", [[0], [0], [0]]⟩]⟩ :=
  C9_enroll_appends_one_template (fun _ => some [0]) emptyMongo "u1" "Alice" "a" "b" "c"
    [0] [0] [0] rfl rfl rfl

theorem C6_report_location_witness :
    (postLocation demoDB "user1" 10 20 7).1 = .ok ()
    ∧ (postLocation demoDB "user1" 10 20 7).2.reports "AB12CD"
        = demoDB.reports "AB12CD" ++ [⟨10, 20, 7⟩]
    ∧ (postLocation demoDB "user1" 10 20 7).2.locationRequest "user1" = none :=
  ⟨((C6_report_location demoDB "user1" 10 20 7).2 "AB12CD" (by rfl)).1,
   ((C6_report_location demoDB "user1" 10 20 7).2 "AB12CD" (by rfl)).2.1,
   ((C6_report_location demoDB "user1" 10 20 7).2 "AB12CD" (by rfl)).2.2.2.1⟩

/-- C10: `RecogniseFace` performs no separate unbound-device check: a
missing or unbound `deviceId` resolves to a null user, `findOne` matches
no record, and the call fails with exactly the same 401 "No user found."
error that a bound device whose user has no record receives; on either
failure path the stored state — the cached `detectedFaces` field included
— is returned unchanged. -/
theorem C10_recognise_no_user_paths (provider : String → List (List Rat))
    (db : DB) (m : Mongo) (deviceId : Option String) (image : String) :
    (deviceId.bind db.devUser = none →
        recogniseFace provider db m deviceId image = (.error noUserError, db))
    ∧ (∀ uid, deviceId.bind db.devUser = some uid → findOne m uid = none →
        recogniseFace provider db m deviceId image = (.error noUserError, db)) := by
  constructor
  · intro hnone
    simp [recogniseFace, hnone]
  · intro uid huid hfind
    simp [recogniseFace, huid, hfind]

theorem C10_recognise_no_user_paths_witness :
    recogniseFace (fun _ => []) emptyDB emptyMongo (some "AB12CD") "img"
      = (.error noUserError, emptyDB)
    ∧ recogniseFace (fun _ => []) demoDB emptyMongo (some "AB12CD") "img"
      = (.error noUserError, demoDB) :=
  ⟨(C10_recognise_no_user_paths (fun _ => []) emptyDB emptyMongo
      (some "AB12CD") "img").1 rfl,
   (C10_recognise_no_user_paths (fun _ => []) demoDB emptyMongo
      (some "AB12CD") "img").2 "user1" (by rfl) rfl⟩
